import Mathlib

/-!
Verification of the `DrawDebugLines` render pass
(`src/amethyst_rendy/src/pass/debug_lines.rs`).

The pass is embedded shallowly: per-frame `prepare` and `draw_inline` become
pure functions over an explicit state, GPU resource lifecycle
(`build_lines_pipeline`, `dispose`) becomes a trace of create/destroy events
over the affected object kinds, and the encoder becomes a list of recorded
commands.  Collaborator types that live elsewhere in the repository
(`DebugLine`, the `DebugLines` pool, `DebugLinesParams` defaults live in this
file's source, `util::ChangeDetection` does not) are modelled from the spec
where their sources are absent, as marked on each definition.
-/

namespace DebugLinesPass

/-- Modelled from the spec: `DebugLine` (from `debug_drawing.rs`, not among the
sources) is a single debug line segment, two 3D endpoints each carrying a
position and a color.  The pass never inspects these fields; they are carried
as opaque payload. -/
structure DebugLine where
  startPos : ℚ × ℚ × ℚ
  startColor : ℚ × ℚ × ℚ × ℚ
  endPos : ℚ × ℚ × ℚ
  endColor : ℚ × ℚ × ℚ × ℚ
deriving DecidableEq

/-- `DebugLinesParams` from `debug_lines.rs`: width of lines in screen-space
pixels. -/
structure DebugLinesParams where
  line_width : ℚ
deriving DecidableEq

/-- `DebugLinesParams::default()`: line width 1.0 pixel. -/
def DebugLinesParams.default : DebugLinesParams := { line_width := 1 }

/-- Modelled from the spec: `rendy`'s `PrepareResult` distinguishes
"reuse compatible" (`DrawReuse`) from "rebuild required" (`DrawRecord`). -/
inductive PrepareResult where
  | DrawReuse
  | DrawRecord
deriving DecidableEq

/-- Modelled from the spec: `util::ChangeDetection` is not among the sources.
Per the spec's data model it records, per frame slot, whether the topology
(vertex count) changed since that slot was last used.  We store the
complement: `clean` is the set of slots prepared since the last reported
change (a change invalidates every slot's cached commands at once, since the
flag it receives compares against the immediately preceding prepare call,
whatever its slot). -/
structure ChangeDetection where
  clean : List Nat
deriving DecidableEq

/-- `Default::default()` for the change-tracking state: no slot has been
prepared yet, so every slot's first prepare must record. -/
def ChangeDetection.default : ChangeDetection := { clean := [] }

/-- Modelled from the spec: `ChangeDetection::prepare_result(index, changed)`.
A reported change marks every slot stale; the result for `index` is
"reuse compatible" exactly when `index` is still clean, and preparing `index`
makes it clean. -/
def ChangeDetection.prepare_result (cd : ChangeDetection) (index : Nat)
    (changed : Bool) : PrepareResult × ChangeDetection :=
  let clean0 := if changed then [] else cd.clean
  if index ∈ clean0 then
    (PrepareResult.DrawReuse, { clean := clean0 })
  else
    (PrepareResult.DrawRecord, { clean := index :: clean0 })

/-- Modelled from the spec: the Global Pool resource (`DebugLines`, not among
the sources) exposes a drain operation removing and returning all currently
queued line primitives, leaving the pool empty. -/
def DebugLines.drain (pool : List DebugLine) : List DebugLine × List DebugLine :=
  (pool, [])

/-- The resources fetched by `prepare`: the alive `DebugLinesComponent`
storage (each component an ordered line list, listed in storage iteration
order), the optional `DebugLines` global pool, and the optional
`DebugLinesParams` style resource. -/
structure Resources where
  components : List (List DebugLine)
  pool : Option (List DebugLine)
  params : Option DebugLinesParams
deriving DecidableEq

/-- The mutable state of `DrawDebugLines` relevant to the per-frame logic:
framebuffer dimensions (stored as f32, here exact rationals), the aggregated
line buffer `lines`, and the change-tracking state.  The GPU handles
(pipeline, layout, uniform and vertex wrappers) are treated via the event
trace model below. -/
structure DrawDebugLines where
  framebuffer_width : ℚ
  framebuffer_height : ℚ
  lines : List DebugLine
  change : ChangeDetection
deriving DecidableEq

/-- Which of the two dynamic uniforms a binding refers to: `env` is the
camera/view `ViewArgs` uniform, `args` the `DebugLinesArgs` line-style
uniform. -/
inductive UniformKind where
  | env
  | args
deriving DecidableEq

/-- The uploads `prepare` performs into the per-frame-slot GPU buffers:
the slots written and the line-style value and vertex payload. -/
structure PrepareWrites where
  env_slot : Nat
  args_slot : Nat
  args_value : ℚ × ℚ
  vertex_slot : Nat
  vertex_size : Nat
  vertex_data : List DebugLine
deriving DecidableEq

/-- Everything `prepare` produces: the updated pass state, the resources as
left behind (the pool possibly drained), the returned `PrepareResult`, and
the buffer writes performed. -/
structure PrepareOutput where
  state : DrawDebugLines
  resources : Resources
  result : PrepareResult
  writes : PrepareWrites
deriving DecidableEq

/-- `DrawDebugLines::prepare` (debug_lines.rs lines 121-176): record the old
aggregated length, clear and refill the line buffer from every alive
component in iteration order, drain the global pool into it when present,
resolve the line width (style resource or the 1.0 default), upload the
camera uniform, the screen-space-thickness pair and the vertex data at slot
`index`, and report the slot-indexed change-detection result for
`changed = old_len != new_len`. -/
def DrawDebugLines.prepare (s : DrawDebugLines) (resources : Resources)
    (index : Nat) : PrepareOutput :=
  let old_len := s.lines.length
  let linesFromComponents := resources.components.foldl (fun acc c => acc ++ c) []
  let drained : List DebugLine × Option (List DebugLine) :=
    match resources.pool with
    | none => ([], none)
    | some p =>
        let d := DebugLines.drain p
        (d.1, some d.2)
  let lines := linesFromComponents ++ drained.1
  let line_width := (resources.params.map (fun p => p.line_width)).getD
    DebugLinesParams.default.line_width
  let args_value := (s.framebuffer_width / (line_width * 2),
                     s.framebuffer_height / (line_width * 2))
  let changed := old_len != lines.length
  let pr := ChangeDetection.prepare_result s.change index changed
  { state := { s with lines := lines, change := pr.2 }
    resources := { resources with pool := drained.2 }
    result := pr.1
    writes := { env_slot := index
                args_slot := index
                args_value := args_value
                vertex_slot := index
                vertex_size := lines.length
                vertex_data := lines } }

/-- A command recorded into the `RenderPassEncoder` by `draw_inline`. -/
inductive EncoderCmd where
  | bind_graphics_pipeline
  | bind_descriptor_set (descSlot : Nat) (uniform : UniformKind) (index : Nat)
  | bind_vertex_buffer (bindSlot : Nat) (index : Nat)
  | draw (vertices : Nat × Nat) (instances : Nat × Nat)
deriving DecidableEq

/-- `DrawDebugLines::draw_inline` (debug_lines.rs lines 178-194): bind the
pipeline, the camera uniform at descriptor slot 0 and the line-style uniform
at descriptor slot 1 for `index`, the vertex buffer at vertex-input slot 0
for `index`, then `encoder.draw(0..4, 0..self.lines.len())`.  The state is
returned unchanged: the source mutates no field of `self`. -/
def DrawDebugLines.draw_inline (s : DrawDebugLines) (index : Nat) :
    DrawDebugLines × List EncoderCmd :=
  (s,
   [EncoderCmd.bind_graphics_pipeline,
    EncoderCmd.bind_descriptor_set 0 UniformKind.env index,
    EncoderCmd.bind_descriptor_set 1 UniformKind.args index,
    EncoderCmd.bind_vertex_buffer 0 index,
    EncoderCmd.draw (0, 4) (0, s.lines.length)])

/-- The kinds of GPU objects `build_lines_pipeline` and `dispose` create or
destroy. -/
inductive GpuObj where
  | pipeline_layout
  | vertex_module
  | fragment_module
  | graphics_pipeline
deriving DecidableEq, BEq

/-- A GPU object lifecycle event, in program order. -/
inductive GpuEvent where
  | create (obj : GpuObj)
  | destroy (obj : GpuObj)
deriving DecidableEq, BEq

/-- How `build_lines_pipeline` exits: `ok` (pipeline and layout returned),
`err` (an error value returned to the caller via `Err`), or `panicked`
(an `unwrap()` on a failed result). -/
inductive BuildOutcome where
  | ok
  | err
  | panicked
deriving DecidableEq

/-- `build_lines_pipeline` (debug_lines.rs lines 206-259), with the outcome
of each fallible collaborator call injected as a boolean.  In source order:
`create_pipeline_layout(...)?` (failure returns `Err`), vertex then fragment
shader `module(factory).unwrap()` (failure panics), `PipelinesBuilder::build`,
unconditional destruction of both shader modules, and on builder failure the
destruction of the pipeline layout before `Err` is returned. -/
def build_lines_pipeline (layout_ok vsh_ok fsh_ok pipes_ok : Bool) :
    BuildOutcome × List GpuEvent :=
  if !layout_ok then
    (BuildOutcome.err, [])
  else if !vsh_ok then
    (BuildOutcome.panicked, [GpuEvent.create GpuObj.pipeline_layout])
  else if !fsh_ok then
    (BuildOutcome.panicked,
     [GpuEvent.create GpuObj.pipeline_layout,
      GpuEvent.create GpuObj.vertex_module])
  else
    let created := [GpuEvent.create GpuObj.pipeline_layout,
                    GpuEvent.create GpuObj.vertex_module,
                    GpuEvent.create GpuObj.fragment_module] ++
      (if pipes_ok then [GpuEvent.create GpuObj.graphics_pipeline] else [])
    let afterModules := created ++
      [GpuEvent.destroy GpuObj.vertex_module,
       GpuEvent.destroy GpuObj.fragment_module]
    if pipes_ok then
      (BuildOutcome.ok, afterModules)
    else
      (BuildOutcome.err, afterModules ++ [GpuEvent.destroy GpuObj.pipeline_layout])

/-- The GPU objects still alive after a trace: creates append, destroys
remove one occurrence. -/
def liveAfter (trace : List GpuEvent) : List GpuObj :=
  trace.foldl (fun live e =>
    match e with
    | GpuEvent.create o => live ++ [o]
    | GpuEvent.destroy o => live.erase o) []

/-- How many times a trace destroys a given object kind. -/
def destroyCount (trace : List GpuEvent) (o : GpuObj) : Nat :=
  trace.countP (fun e => e == GpuEvent.destroy o)

/-- `DrawDebugLines::dispose` (debug_lines.rs lines 196-203): destroy the
graphics pipeline, then the pipeline layout.  `dispose` consumes
`Box<Self>`, so the type system already forbids a second call. -/
def DrawDebugLines.dispose (_s : DrawDebugLines) : List GpuEvent :=
  [GpuEvent.destroy GpuObj.graphics_pipeline,
   GpuEvent.destroy GpuObj.pipeline_layout]

/-- `DrawDebugLinesDesc::build` (debug_lines.rs lines 64-104), restricted to
what is decided in this file: it hands `build_lines_pipeline` the raw
descriptor-set layouts `vec![env.raw_layout(), args.raw_layout()]` in that
order, and on success returns a `DrawDebugLines` with the given framebuffer
dimensions (as f32), an empty aggregated line buffer and default
change-tracking state. -/
def DrawDebugLinesDesc.build (framebuffer_width framebuffer_height : Nat) :
    List UniformKind × DrawDebugLines :=
  ([UniformKind.env, UniformKind.args],
   { framebuffer_width := (framebuffer_width : ℚ)
     framebuffer_height := (framebuffer_height : ℚ)
     lines := []
     change := ChangeDetection.default })

/-- A line value used to build concrete runs. -/
def sampleLine : DebugLine :=
  { startPos := (0, 0, 0)
    startColor := (1, 1, 1, 1)
    endPos := (1, 0, 0)
    endColor := (1, 1, 1, 1) }

/-- Resources holding exactly `n` component lines, no pool, no style
resource. -/
def resWithCount (n : Nat) : Resources :=
  { components := [List.replicate n sampleLine], pool := none, params := none }

/-- The left fold `prepare` uses to refill the buffer is list concatenation. -/
theorem foldl_append_eq_join (ls : List (List DebugLine)) (acc : List DebugLine) :
    ls.foldl (fun a c => a ++ c) acc = acc ++ ls.flatten := by
  induction ls generalizing acc with
  | nil => simp
  | cons h t ih => simp [ih, List.append_assoc]

/-- Reuse is reported exactly when no change was flagged at this call and the
slot is clean. -/
theorem prepare_result_reuse_iff (cd : ChangeDetection) (index : Nat)
    (changed : Bool) :
    (cd.prepare_result index changed).1 = PrepareResult.DrawReuse ↔
      (changed = false ∧ index ∈ cd.clean) := by
  unfold ChangeDetection.prepare_result
  cases changed with
  | false =>
      simp
      by_cases h : index ∈ cd.clean <;> simp [h]
  | true => simp

/-- With the change flag computed as a count disequality, reuse is reported
exactly when the counts agree and the slot is clean. -/
theorem prepare_result_count_iff (cd : ChangeDetection) (index old_n new_n : Nat) :
    (cd.prepare_result index (old_n != new_n)).1 = PrepareResult.DrawReuse ↔
      (old_n = new_n ∧ index ∈ cd.clean) := by
  rw [prepare_result_reuse_iff cd index (old_n != new_n)]
  by_cases hc : old_n = new_n <;> simp [hc]

/-- C1: after `prepare` with components `L1..Ln` and a present Global Pool
`P`, the aggregated line buffer equals `concat(L1..Ln) ++ P` (storage
iteration order first, drained pool last), the pool is left empty, and a
second `prepare` without new submissions drains nothing: its buffer is
`concat(L1..Ln)` alone. -/
theorem C1_prepare_aggregation (components : List (List DebugLine))
    (pool : List DebugLine) (params : Option DebugLinesParams)
    (s : DrawDebugLines) (index index2 : Nat) :
    (s.prepare ⟨components, some pool, params⟩ index).state.lines =
      components.flatten ++ pool ∧
    (s.prepare ⟨components, some pool, params⟩ index).resources.pool =
      some [] ∧
    ((s.prepare ⟨components, some pool, params⟩ index).state.prepare
        ((s.prepare ⟨components, some pool, params⟩ index).resources)
        index2).state.lines = components.flatten := by
  refine ⟨?_, rfl, ?_⟩ <;>
    simp [DrawDebugLines.prepare, DebugLines.drain, foldl_append_eq_join]

/-- C2 counterexample: two frame slots, three `prepare` calls with aggregated
counts 5 (slot 0), 7 (slot 1), 5 (slot 0).  The third call sees the same
count as the immediately preceding `prepare` of the same slot (both 5), yet
reports rebuild required, refuting "reuse compatible when the counts for the
slot are equal". -/
theorem C2_counterexample :
    (((DrawDebugLinesDesc.build 800 600).2.prepare (resWithCount 5)
        0).state.lines.length = 5) ∧
    ((((DrawDebugLinesDesc.build 800 600).2.prepare (resWithCount 5)
        0).state.prepare (resWithCount 7) 1).state.prepare (resWithCount 5)
        0).state.lines.length = 5 ∧
    ((((DrawDebugLinesDesc.build 800 600).2.prepare (resWithCount 5)
        0).state.prepare (resWithCount 7) 1).state.prepare (resWithCount 5)
        0).result = PrepareResult.DrawRecord := by
  decide

/-- C2 (amended): `prepare` reports reuse compatible iff the aggregated count
equals the count of the immediately preceding `prepare` call regardless of
its slot, and this slot has been prepared since the last reported count
change; equality with the same slot's previous count alone does not
suffice. -/
theorem C2_change_detection (s : DrawDebugLines) (r : Resources)
    (index : Nat) :
    (s.prepare r index).result = PrepareResult.DrawReuse ↔
      (s.lines.length = (s.prepare r index).state.lines.length ∧
       index ∈ s.change.clean) := by
  exact prepare_result_count_iff s.change index s.lines.length
    (s.prepare r index).state.lines.length

/-- C3 counterexample: when vertex shader module creation fails,
`build_lines_pipeline` panics through `unwrap()` instead of returning an
error value, and the already-created pipeline layout is left alive
(leaked). -/
theorem C3_counterexample :
    (build_lines_pipeline true false true true).1 = BuildOutcome.panicked ∧
    liveAfter (build_lines_pipeline true false true true).2 =
      [GpuObj.pipeline_layout] := by
  decide

/-- C3 (amended): pipeline-layout-creation failure and graphics-pipeline-
creation failure make `build_lines_pipeline` return an error value with no
GPU object left alive; vertex or fragment shader-module-creation failure
instead panics (an `unwrap()`), so those two failures are not returned as
errors. -/
theorem C3_failure_paths (v f p : Bool) :
    (build_lines_pipeline false v f p).1 = BuildOutcome.err ∧
    liveAfter (build_lines_pipeline false v f p).2 = [] ∧
    (build_lines_pipeline true true true false).1 = BuildOutcome.err ∧
    liveAfter (build_lines_pipeline true true true false).2 = [] ∧
    (build_lines_pipeline true false f p).1 = BuildOutcome.panicked ∧
    (build_lines_pipeline true true false p).1 = BuildOutcome.panicked := by
  cases v <;> cases f <;> cases p <;> decide

/-- C4: once both shader modules have been created, `build_lines_pipeline`
destroys both of them exactly once whether pipeline creation succeeds or
fails, and on pipeline-creation failure the full trace shows the layout is
additionally destroyed — after the module destructions, before the error is
returned — with the outcome an error value. -/
theorem C4_shader_module_release (pipes_ok : Bool) :
    destroyCount (build_lines_pipeline true true true pipes_ok).2
      GpuObj.vertex_module = 1 ∧
    destroyCount (build_lines_pipeline true true true pipes_ok).2
      GpuObj.fragment_module = 1 ∧
    (build_lines_pipeline true true true false).1 = BuildOutcome.err ∧
    (build_lines_pipeline true true true false).2 =
      [GpuEvent.create GpuObj.pipeline_layout,
       GpuEvent.create GpuObj.vertex_module,
       GpuEvent.create GpuObj.fragment_module,
       GpuEvent.destroy GpuObj.vertex_module,
       GpuEvent.destroy GpuObj.fragment_module,
       GpuEvent.destroy GpuObj.pipeline_layout] := by
  cases pipes_ok <;> decide

/-- C5: `draw_inline` records exactly one draw command; its vertex range is
the 4 quad-corner vertices `0..4` and its instance range is
`0..(aggregated line count)`, also when that count is zero (the draw is
still recorded, with zero instances). -/
theorem C5_single_draw_call (s : DrawDebugLines) (index : Nat) :
    ((s.draw_inline index).2.filter (fun c =>
        match c with
        | EncoderCmd.draw _ _ => true
        | _ => false)) =
      [EncoderCmd.draw (0, 4) (0, s.lines.length)] := by
  rfl

/-- C6: the value `prepare` writes to the line-style uniform at slot `index`
is `(width / (line_width * 2), height / (line_width * 2))`, with
`line_width` taken from the style resource when present and the 1.0 default
otherwise; concretely, width 800, height 600 and line width 2 give
`(200, 150)`. -/
theorem C6_screen_space_thickness (components : List (List DebugLine))
    (pool : Option (List DebugLine)) (lw : ℚ) (s : DrawDebugLines)
    (index : Nat) :
    (s.prepare ⟨components, pool, some ⟨lw⟩⟩ index).writes.args_slot =
      index ∧
    (s.prepare ⟨components, pool, some ⟨lw⟩⟩ index).writes.args_value =
      (s.framebuffer_width / (lw * 2), s.framebuffer_height / (lw * 2)) ∧
    (s.prepare ⟨components, pool, none⟩ index).writes.args_value =
      (s.framebuffer_width / (1 * 2), s.framebuffer_height / (1 * 2)) ∧
    ((DrawDebugLinesDesc.build 800 600).2.prepare
        ⟨[], none, some ⟨2⟩⟩ 0).writes.args_value = ((200 : ℚ), (150 : ℚ)) := by
  refine ⟨rfl, rfl, rfl, ?_⟩
  simp [DrawDebugLines.prepare, DrawDebugLinesDesc.build]
  norm_num

/-- C7: `build` passes the descriptor-set layouts to pipeline-layout creation
in the order camera/view (`env`) first, line-style (`args`) second, and
`draw_inline` binds the camera uniform at descriptor slot 0, the line-style
uniform at descriptor slot 1, and the vertex buffer at vertex-input slot 0,
all for `index`. -/
theorem C7_binding_order (fw fh : Nat) (s : DrawDebugLines) (index : Nat) :
    (DrawDebugLinesDesc.build fw fh).1 =
      [UniformKind.env, UniformKind.args] ∧
    EncoderCmd.bind_descriptor_set 0 UniformKind.env index ∈
      (s.draw_inline index).2 ∧
    EncoderCmd.bind_descriptor_set 1 UniformKind.args index ∈
      (s.draw_inline index).2 ∧
    EncoderCmd.bind_vertex_buffer 0 index ∈ (s.draw_inline index).2 := by
  refine ⟨rfl, ?_, ?_, ?_⟩ <;> simp [DrawDebugLines.draw_inline]

/-- C8: `dispose` produces exactly the trace destroying the graphics
pipeline and then the pipeline layout — each exactly once, in that order,
and no other GPU object; the `Box<Self>` receiver makes a call after a prior
dispose unrepresentable. -/
theorem C8_dispose_order (s : DrawDebugLines) :
    s.dispose = [GpuEvent.destroy GpuObj.graphics_pipeline,
                 GpuEvent.destroy GpuObj.pipeline_layout] := rfl

/-- C9: `draw_inline` leaves the pass state — aggregated line buffer,
change-tracking state and framebuffer dimensions — unchanged; its only
product is the recorded command list. -/
theorem C9_draw_preserves_state (s : DrawDebugLines) (index : Nat) :
    (s.draw_inline index).1 = s := rfl

/-- C10: `prepare` never mutates its line inputs other than the Global Pool:
the per-entity component line lists and the style-parameters resource it
hands back are exactly those it was given, for every resource state. -/
theorem C10_prepare_preserves_inputs (r : Resources) (s : DrawDebugLines)
    (index : Nat) :
    (s.prepare r index).resources.components = r.components ∧
    (s.prepare r index).resources.params = r.params := ⟨rfl, rfl⟩

end DebugLinesPass
